import Mathlib

/-!
Shallow embedding of the Starfield screensaver repository (three C++ variants):
* `Gdi`  — src/Starfield/Starfield.cpp (GDI backbuffer variant)
* `D2d`  — src/unnamed/part_000 (plain Direct2D variant)
* `D2dP` — src/unnamed/part_001 (parameterized Direct2D variant)

Machine floats are modelled by exact rationals; the Mersenne-twister draws are
modelled as explicit inputs: each `uniform_real_distribution(a, b)` sample is
`a + f * (b - a)` for a unit draw `f ∈ [0, 1)`, and each raw `rng()` word is a
natural number.  C `lroundf` on the nonnegative arguments that occur here is
`round`, C integer division of nonnegative ints is `Nat`/`Int` division, and a
C cast `(int)` of a nonnegative float is the floor.
-/

namespace Starfield

namespace Gdi

/-- Star from src/Starfield/Starfield.cpp lines 59-65. -/
structure Star where
  x : ℚ
  y : ℚ
  z : ℚ
  speed : ℚ
deriving DecidableEq, Repr

/-- Z_MIN, line 169. -/
def Z_MIN : ℚ := 2

/-- Z_MAX, line 171. -/
def Z_MAX : ℚ := 33

/-- FOCAL, line 173. -/
def FOCAL : ℚ := 9

/-- SIZE_SCALE, line 175. -/
def SIZE_SCALE : ℚ := 1

/-- jitterMax = max(1, g_speed / 2 + 1), lines 184 and 236 (g_speed ≥ 0). -/
def jitterMax (gs : ℕ) : ℕ := max 1 (gs / 2 + 1)

/-- InitStars body for one star, lines 187-200: x = (fx-0.5)*width*2,
y = (fy-0.5)*height*2, z = fz*(Z_MAX-Z_MIN)+Z_MIN,
speed = g_speed + rng() % jitterMax. -/
def initStar (w h : ℚ) (gs : ℕ) (fx fy fz : ℚ) (word : ℕ) : Star :=
  { x := (fx - 1/2) * w * 2
    y := (fy - 1/2) * h * 2
    z := fz * (Z_MAX - Z_MIN) + Z_MIN
    speed := (gs : ℚ) + ((word % jitterMax gs : ℕ) : ℚ) }

/-- Respawn branch of RenderFrame, lines 231-237 (translated independently of
`initStar` so the two code sites can be compared). -/
def respawnStar (w h : ℚ) (gs : ℕ) (fx fy fz : ℚ) (word : ℕ) : Star :=
  { x := (fx - 1/2) * w * 2
    y := (fy - 1/2) * h * 2
    z := fz * (Z_MAX - Z_MIN) + Z_MIN
    speed := (gs : ℚ) + ((word % jitterMax gs : ℕ) : ℚ) }

/-- Unit draws (3 reals and one rng word) consumed by one respawn. -/
structure Draws where
  fx : ℚ
  fy : ℚ
  fz : ℚ
  word : ℕ
deriving DecidableEq, Repr

/-- Depth advance, line 228: s.z -= s.speed * dt * 0.5f. -/
def advanceZ (z speed dt : ℚ) : ℚ := z - speed * dt * (1/2)

/-- One star's depth update in RenderFrame, lines 227-238: advance the depth,
respawn when it falls to or below Z_MIN. -/
def stepStar (w h : ℚ) (gs : ℕ) (dt : ℚ) (s : Star) (r : Draws) : Star :=
  if advanceZ s.z s.speed dt ≤ Z_MIN then respawnStar w h gs r.fx r.fy r.fz r.word
  else { s with z := advanceZ s.z s.speed dt }

/-- Uncurried `stepStar` for folding a sequence of frames over one star. -/
def stepStarP (w h : ℚ) (gs : ℕ) (s : Star) (p : ℚ × Draws) : Star :=
  stepStar w h gs p.1 s p.2

/-- Projected x, line 241: px = cx + s.x * (FOCAL / s.z). -/
def projX (w : ℚ) (s : Star) : ℚ := w * (1/2) + s.x * (FOCAL / s.z)

/-- Projected y, line 242. -/
def projY (h : ℚ) (s : Star) : ℚ := h * (1/2) + s.y * (FOCAL / s.z)

/-- Projected size, lines 245-247: psz = ceil(max(1, SIZE_SCALE * (Z_MIN/z)))
capped at 128. -/
def psz (z : ℚ) : ℤ := min 128 ⌈max 1 (SIZE_SCALE * (Z_MIN / z))⌉

/-- Pulse factor, line 219, with the sine output `σ` as a parameter:
pulse = 1 + 0.05 * sin(totalTime * 1.5). -/
def pulse (σ : ℚ) : ℚ := 1 + (1/20) * σ

/-- Normalized depth, line 250: t = (z - Z_MIN) / (Z_MAX - Z_MIN). -/
def depthT (z : ℚ) : ℚ := (z - Z_MIN) / (Z_MAX - Z_MIN)

/-- Intensity, lines 251-253: lround(100 + (1-t) * 155 * pulse) clamped
to [0, 255]. -/
def intensity (z σ : ℚ) : ℤ :=
  max 0 (min 255 (round (100 + (1 - depthT z) * 155 * pulse σ)))

/-- BUCKETS, line 222. -/
def BUCKETS : ℤ := 6

/-- Brush bucket, lines 256-257: (int)(intensity / (256.0f / BUCKETS)) clamped
to [0, BUCKETS-1]; the cast of the nonnegative quotient is its floor. -/
def bucket (i : ℤ) : ℤ := max 0 (min (BUCKETS - 1) ⌊(i : ℚ) / (256 / (BUCKETS : ℚ))⌋)

/-- Whitening factor, line 264: whiten = 0.5 + 0.5 * (bucket / (BUCKETS-1)). -/
def whiten (b : ℤ) : ℚ := 1/2 + (1/2) * ((b : ℚ) / ((BUCKETS : ℚ) - 1))

/-- One output channel, lines 260-267: c = (base * intensity) / 255 in integer
division, then min(255, lround(c * whiten + 255 * (1 - whiten))). -/
def channel (base ity b : ℤ) : ℤ :=
  min 255 (round (((base * ity / 255 : ℤ) : ℚ) * whiten b + 255 * (1 - whiten b)))

/-- Deterministic view of the per-window mt19937: the stream of unit real
draws, the stream of raw words, and the position of the next draw. -/
structure Rng where
  reals : ℕ → ℚ
  words : ℕ → ℕ
  pos : ℕ

/-- Consume one real draw. -/
def nextReal (g : Rng) : ℚ × Rng := (g.reals g.pos, { g with pos := g.pos + 1 })

/-- Consume one raw word. -/
def nextWord (g : Rng) : ℕ × Rng := (g.words g.pos, { g with pos := g.pos + 1 })

/-- Sample one star as in the InitStars loop body, lines 187-200. -/
def sampleStar (w h : ℚ) (gs : ℕ) (g : Rng) : Star × Rng :=
  let (fx, g1) := nextReal g
  let (fy, g2) := nextReal g1
  let (fz, g3) := nextReal g2
  let (wd, g4) := nextWord g3
  (initStar w h gs fx fy fz wd, g4)

/-- InitStars star list, lines 176-201: `count` stars sampled in order. -/
def initStars (w h : ℚ) (gs : ℕ) : ℕ → Rng → List Star × Rng
  | 0, g => ([], g)
  | n + 1, g =>
      let (s, g1) := sampleStar w h gs g
      let (rest, g2) := initStars w h gs n g1
      (s :: rest, g2)

/-- One star's RenderFrame update with the generator threaded through: draws
are consumed only when the respawn branch fires, lines 227-238. -/
def stepStarRng (w h : ℚ) (gs : ℕ) (dt : ℚ) (s : Star) (g : Rng) : Star × Rng :=
  let z' := advanceZ s.z s.speed dt
  if z' ≤ Z_MIN then
    let (fx, g1) := nextReal g
    let (fy, g2) := nextReal g1
    let (fz, g3) := nextReal g2
    let (wd, g4) := nextWord g3
    (respawnStar w h gs fx fy fz wd, g4)
  else ({ s with z := z' }, g)

/-- The star-mutation pass of RenderFrame over the whole population,
line 225: `for (auto& s : rw->stars)` updates each star in place. -/
def renderStars (w h : ℚ) (gs : ℕ) (dt : ℚ) : List Star → Rng → List Star × Rng
  | [], g => ([], g)
  | s :: rest, g =>
      let (s', g1) := stepStarRng w h gs dt s g
      let (rest', g2) := renderStars w h gs dt rest g1
      (s' :: rest', g2)

/-- One whole frame acting on (stars, rng) with a given dt. -/
def renderFrameStep (w h : ℚ) (gs : ℕ) (p : List Star × Rng) (dt : ℚ) : List Star × Rng :=
  renderStars w h gs dt p.1 p.2

/-- Window rectangle, as in RECT. -/
structure Rect where
  left : ℤ
  top : ℤ
  right : ℤ
  bottom : ℤ
deriving DecidableEq, Repr

/-- Drawable width, lines 180 and 207: max(1, right - left). -/
def Rect.width (r : Rect) : ℤ := max 1 (r.right - r.left)

/-- Drawable height, lines 181 and 208. -/
def Rect.height (r : Rect) : ℤ := max 1 (r.bottom - r.top)

/-- RenderWindow, lines 68-78 (the drawing handles are irrelevant to the
simulation and omitted). -/
structure RenderWindow where
  rc : Rect
  stars : List Star
  rng : Rng

/-- InitStars acting on a RenderWindow, lines 176-201. -/
def InitStars (count gs : ℕ) (rw : RenderWindow) : RenderWindow :=
  let (ss, g') := initStars (rw.rc.width : ℚ) (rw.rc.height : ℚ) gs count rw.rng
  { rw with stars := ss, rng := g' }

/-- A filled-ellipse draw call recorded as its centre and radius. -/
structure DrawCall where
  x : ℚ
  y : ℚ
  r : ℚ
deriving DecidableEq, Repr

/-- Draw-call emission for one already-advanced star, lines 240-276: the star
is skipped (no call) exactly when the code's off-screen test on lines 271
fires. -/
def emitStar (w h : ℚ) (s : Star) : Option DrawCall :=
  if projX w s + (psz s.z : ℚ) < 0 ∨ projX w s - (psz s.z : ℚ) > w ∨
     projY h s + (psz s.z : ℚ) < 0 ∨ projY h s - (psz s.z : ℚ) > h then none
  else some ⟨projX w s, projY h s, (psz s.z : ℚ)⟩

end Gdi

namespace D2d

/-- Star from src/unnamed/part_000 line 80 (same shape in part_001 line 87). -/
structure Star where
  x : ℚ
  y : ℚ
  z : ℚ
  base : ℚ
  phase : ℚ
deriving DecidableEq, Repr

/-- The literal 6.28318530718f used for the phase range (part_000 line 133). -/
def TAU : ℚ := 6.28318530718

/-- InitStars position sample, part_000 line 129: ux(0, w) at unit draw f. -/
def initX (w f : ℚ) : ℚ := f * w

/-- InitStars depth sample, part_000 line 131: uz(0.2, 1.0). -/
def initZ (f : ℚ) : ℚ := 1/5 + f * (1 - 1/5)

/-- InitStars brightness-base sample, part_000 line 132: ub(0.6, 1.0). -/
def initBase (f : ℚ) : ℚ := 3/5 + f * (1 - 3/5)

/-- InitStars phase sample, part_000 line 133: uph(0, 2π). -/
def initPhase (f : ℚ) : ℚ := f * TAU

/-- InitStars body for one star, part_000 lines 134-137. -/
def initStar (w h fx fy fz fb fp : ℚ) : Star :=
  ⟨initX w fx, initX h fy, initZ fz, initBase fb, initPhase fp⟩

/-- Respawn position sample, part_000 line 162: ux(0, size.width). -/
def respawnX (w f : ℚ) : ℚ := f * w

/-- Respawn depth sample, part_000 line 164: uz(0.5, 1.0). -/
def respawnZ (f : ℚ) : ℚ := 1/2 + f * (1 - 1/2)

/-- Respawn brightness-base sample, part_000 line 165: ub(0.6, 1.0). -/
def respawnBase (f : ℚ) : ℚ := 3/5 + f * (1 - 3/5)

/-- Respawn phase sample, part_000 line 166: uph(0, 2π). -/
def respawnPhase (f : ℚ) : ℚ := f * TAU

/-- Respawn branch of RenderFrame, part_000 lines 161-168. -/
def respawnStar (w h fx fy fz fb fp : ℚ) : Star :=
  ⟨respawnX w fx, respawnX h fy, respawnZ fz, respawnBase fb, respawnPhase fp⟩

/-- Unit draws consumed by one respawn. -/
structure Draws where
  fx : ℚ
  fy : ℚ
  fz : ℚ
  fb : ℚ
  fp : ℚ
deriving DecidableEq, Repr

/-- One star's depth update in RenderFrame, part_000 lines 160-168:
z -= 0.5 * speed * dt, respawn when z ≤ 0.05. -/
def stepStar (w h speed dt : ℚ) (s : Star) (r : Draws) : Star :=
  if s.z - (1/2) * speed * dt ≤ 1/20 then respawnStar w h r.fx r.fy r.fz r.fb r.fp
  else { s with z := s.z - (1/2) * speed * dt }

/-- Uncurried `stepStar` for folding a sequence of frames over one star. -/
def stepStarP (w h speed : ℚ) (s : Star) (p : ℚ × Draws) : Star :=
  stepStar w h speed p.1 s p.2

/-- Projected size, part_000 line 171: psz = 2.5 / z, raised to 1 if below. -/
def psz (z : ℚ) : ℚ :=
  if 5/2 / z < 1 then 1 else 5/2 / z

/-- Twinkle factor, part_000 line 172, with the sine output `σ` as a
parameter: tw = base + (sin(phase + t*5) * 0.5 + 0.5) * twinkle. -/
def twFactor (base twinkle σ : ℚ) : ℚ := base + (σ * (1/2) + 1/2) * twinkle

/-- One normalized output channel, part_000 lines 173-175: c / 255 * tw
(no clamping in the code). -/
def channelOut (c : ℕ) (tw : ℚ) : ℚ := (c : ℚ) / 255 * tw

/-- Per-star draw call, part_000 lines 169-178: projection, size, then an
unconditional FillEllipse. -/
def renderStar (w h : ℚ) (s : Star) : Gdi.DrawCall :=
  let cx := w * (1/2)
  let cy := h * (1/2)
  ⟨(s.x - cx) / s.z + cx, (s.y - cy) / s.z + cy, psz s.z⟩

/-- The draw calls of one frame, part_000 lines 159-179: one FillEllipse per
star, with no off-screen test anywhere in the loop. -/
def drawCalls (w h : ℚ) (stars : List Star) : List Gdi.DrawCall :=
  stars.map (renderStar w h)

/-- Sample one star as in the InitStars loop body, part_000 lines 134-137,
with the generator threaded through. -/
def sampleStar (w h : ℚ) (g : Gdi.Rng) : Star × Gdi.Rng :=
  let (fx, g1) := Gdi.nextReal g
  let (fy, g2) := Gdi.nextReal g1
  let (fz, g3) := Gdi.nextReal g2
  let (fb, g4) := Gdi.nextReal g3
  let (fp, g5) := Gdi.nextReal g4
  (initStar w h fx fy fz fb fp, g5)

/-- InitStars star list, part_000 lines 124-138. -/
def initStars (w h : ℚ) : ℕ → Gdi.Rng → List Star × Gdi.Rng
  | 0, g => ([], g)
  | n + 1, g =>
      let (s, g1) := sampleStar w h g
      let (rest, g2) := initStars w h n g1
      (s :: rest, g2)

end D2d

namespace D2dP

/-- g_starBase, part_001 line 36. -/
def g_starBase : ℚ := 1

/-- g_starSizeMultiplier, part_001 line 35. -/
def g_starSizeMultiplier : ℚ := 1

/-- g_starMin, part_001 line 37. -/
def g_starMin : ℚ := 1/2

/-- g_starMax, part_001 line 38. -/
def g_starMax : ℚ := 8

/-- clamp template, part_001 lines 16-19. -/
def clamp (val minVal maxVal : ℚ) : ℚ :=
  if val < minVal then minVal else if val > maxVal then maxVal else val

/-- Projected size at 96 DPI (dpiScale = 1), part_001 lines 179-184:
psz = clamp((g_starBase / z) * (0.6 + 0.8 * base) * g_starSizeMultiplier,
g_starMin, g_starMax). -/
def psz (z base : ℚ) : ℚ :=
  clamp (g_starBase / z * (3/5 + (4/5) * base) * g_starSizeMultiplier) g_starMin g_starMax

end D2dP

namespace Gate

/-- The input messages handled by the exit gate (part_000 lines 199-204,
Starfield.cpp lines 318-323): a key press, any mouse button press, or a mouse
move carrying the current cursor position. -/
inductive Msg where
  | keydown
  | buttondown
  | mousemove (cur : ℤ × ℤ)
deriving DecidableEq, Repr

/-- Mouse-tracking state: g_startMouse and g_startMouseInit,
Starfield.cpp lines 89-90. -/
structure GateState where
  startMouse : ℤ × ℤ
  startMouseInit : Bool
deriving DecidableEq, Repr

/-- g_mouseMoveThreshold, Starfield.cpp line 91 and part_001 line 109. -/
def mouseMoveThreshold : ℤ := 12

/-- Full input gate of the GDI and parameterized D2D variants,
Starfield.cpp lines 318-344 (identical logic in part_001 lines 212-231):
returns (exit decision, new mouse-tracking state). -/
def gateFull (debounce seconds : ℚ) (foreground : Bool) (st : GateState) (m : Msg) :
    Bool × GateState :=
  if seconds < debounce then (false, st)
  else if foreground = false then (false, st)
  else
    match m with
    | Msg.mousemove cur =>
        if st.startMouseInit = false then (false, ⟨cur, true⟩)
        else if |cur.1 - st.startMouse.1| < mouseMoveThreshold ∧
                |cur.2 - st.startMouse.2| < mouseMoveThreshold then (false, st)
        else (true, st)
    | _ => (true, st)

/-- Exit condition of `gateFull` stated directly: past the debounce, in the
foreground, and either a non-move input or a move of at least the threshold
from a recorded start position. -/
def gateFullSpec (debounce seconds : ℚ) (foreground : Bool) (st : GateState) (m : Msg) :
    Bool :=
  decide (debounce ≤ seconds) && foreground &&
    match m with
    | Msg.mousemove cur =>
        st.startMouseInit &&
          (decide (mouseMoveThreshold ≤ |cur.1 - st.startMouse.1|) ||
           decide (mouseMoveThreshold ≤ |cur.2 - st.startMouse.2|))
    | _ => true

/-- g_inputDebounceSeconds of the plain D2D variant, part_000 line 99. -/
def debounce000 : ℚ := 5/2

/-- Input gate of the plain D2D variant, part_000 lines 204-216: the handler
exits whenever seconds ≥ debounce, never consulting the foreground state or
the mouse position. -/
def gate000 (seconds : ℚ) (_foreground : Bool) (_m : Msg) : Bool :=
  decide (¬ seconds < debounce000)

end Gate

namespace Settings

/-- Star-count clamp on OK, Starfield.cpp line 480, part_000 line 319,
part_001 line 341: max(10, min(5000, stars)). -/
def clampStars (v : ℤ) : ℤ := max 10 (min 5000 v)

/-- Speed-percent clamp, Starfield.cpp line 482, part_000 line 321. -/
def clampSpeed (v : ℤ) : ℤ := max 10 (min 300 v)

/-- Twinkle-percent clamp, part_000 line 323, part_001 line 345. -/
def clampTwinkle (v : ℤ) : ℤ := max 0 (min 100 v)

/-- Committed star count on OK: a failed parse keeps the current value,
then the clamp is applied (Starfield.cpp lines 479-480). -/
def commitStars (parsed : Option ℤ) (cur : ℤ) : ℤ := clampStars (parsed.getD cur)

/-- Committed speed percent on OK (Starfield.cpp lines 481-482). -/
def commitSpeed (parsed : Option ℤ) (cur : ℤ) : ℤ := clampSpeed (parsed.getD cur)

/-- Committed twinkle percent on OK (part_000 lines 322-323). -/
def commitTwinkle (parsed : Option ℤ) (cur : ℤ) : ℤ := clampTwinkle (parsed.getD cur)

end Settings

/-- Off-screen test stated from the spec's words: the projected bounding box
(a square of half-side `r` around the centre) lies entirely outside the
viewport `[0,w] × [0,h]`; for axis-aligned boxes this is separation along one
axis, which is the same test Starfield.cpp line 271 performs. -/
def offscreenSpec (w h : ℚ) (c : Gdi.DrawCall) : Prop :=
  c.x + c.r < 0 ∨ c.x - c.r > w ∨ c.y + c.r < 0 ∨ c.y - c.r > h

/-- A concrete all-zero generator used by witnesses. -/
def rng0 : Gdi.Rng := ⟨fun _ => 0, fun _ => 0, 0⟩

/-- A concrete render window used by witnesses. -/
def rw0 : Gdi.RenderWindow := ⟨⟨0, 0, 100, 50⟩, [], rng0⟩

/-- GDI star whose advance at dt = 1/60 drops its depth to 1.6 ≤ Z_MIN. -/
def starC1 : Gdi.Star := ⟨0, 0, 21/10, 60⟩

/-- Unit draws with fz = 0: the respawned depth is then exactly Z_MIN. -/
def drawsC1 : Gdi.Draws := ⟨0, 0, 0, 0⟩

/-- Plain-D2D star projecting far left of an 800×600 viewport. -/
def starOff : D2d.Star := ⟨0, 300, 1/10, 3/5, 0⟩

/-- GDI star projecting far left of a 100×100 viewport. -/
def starOffG : Gdi.Star := ⟨-1000, 0, 2, 60⟩

/-- Well-formed GDI star state: depth in the [Z_MIN, Z_MAX) band and a
nonnegative per-star speed (what InitStars establishes). -/
def Gdi.WFStar (s : Gdi.Star) : Prop :=
  Gdi.Z_MIN ≤ s.z ∧ s.z < Gdi.Z_MAX ∧ 0 ≤ s.speed

/-- Well-formed GDI frame input: nonnegative dt and a unit depth draw. -/
def Gdi.WFFrame (p : ℚ × Gdi.Draws) : Prop :=
  0 ≤ p.1 ∧ 0 ≤ p.2.fz ∧ p.2.fz < 1

/-- Well-formed plain-D2D star state: depth strictly above the 0.05 near
bound and strictly below 1. -/
def D2d.WFStar (s : D2d.Star) : Prop := 1/20 < s.z ∧ s.z < 1

/-- Well-formed plain-D2D frame input. -/
def D2d.WFFrame (p : ℚ × D2d.Draws) : Prop :=
  0 ≤ p.1 ∧ 0 ≤ p.2.fz ∧ p.2.fz < 1

theorem Gdi.initStars_length (w h : ℚ) (gs n : ℕ) :
    ∀ g : Gdi.Rng, ((Gdi.initStars w h gs n g).1).length = n := by
  induction n with
  | zero => intro g; rfl
  | succ n ih =>
      intro g
      simp only [Gdi.initStars, List.length_cons]
      exact congrArg Nat.succ (ih _)

theorem Gdi.renderStars_length (w h : ℚ) (gs : ℕ) (dt : ℚ) (stars : List Gdi.Star) :
    ∀ g : Gdi.Rng, ((Gdi.renderStars w h gs dt stars g).1).length = stars.length := by
  induction stars with
  | nil => intro g; rfl
  | cons s rest ih =>
      intro g
      simp only [Gdi.renderStars, List.length_cons]
      exact congrArg Nat.succ (ih _)

theorem Gdi.foldl_frames_length (w h : ℚ) (gs : ℕ) (dts : List ℚ) :
    ∀ (stars : List Gdi.Star) (g : Gdi.Rng),
      ((dts.foldl (Gdi.renderFrameStep w h gs) (stars, g)).1).length = stars.length := by
  induction dts with
  | nil => intro stars g; rfl
  | cons dt rest ih =>
      intro stars g
      simp only [List.foldl_cons]
      have h1 := ih (Gdi.renderStars w h gs dt stars g).1 (Gdi.renderStars w h gs dt stars g).2
      calc ((rest.foldl (Gdi.renderFrameStep w h gs) (Gdi.renderFrameStep w h gs (stars, g) dt)).1).length
        = ((Gdi.renderStars w h gs dt stars g).1).length := h1
      _ = stars.length := Gdi.renderStars_length w h gs dt stars g

/-- C6: the star population size is constant — InitStars yields exactly the
configured count (both as a list pass and on a RenderWindow) and any sequence
of RenderFrame star passes, with any dts and any respawns, keeps the length
of the star list unchanged. -/
theorem C6_population_constant :
    (∀ (w h : ℚ) (gs n : ℕ) (g : Gdi.Rng), ((Gdi.initStars w h gs n g).1).length = n) ∧
    (∀ (count gs : ℕ) (rw : Gdi.RenderWindow),
      ((Gdi.InitStars count gs rw).stars).length = count) ∧
    (∀ (w h : ℚ) (gs : ℕ) (dts : List ℚ) (stars : List Gdi.Star) (g : Gdi.Rng),
      ((dts.foldl (Gdi.renderFrameStep w h gs) (stars, g)).1).length = stars.length) := by
  refine ⟨fun w h gs n g => Gdi.initStars_length w h gs n g, ?_, ?_⟩
  · intro count gs rw
    exact Gdi.initStars_length _ _ gs count rw.rng
  · intro w h gs dts stars g
    exact Gdi.foldl_frames_length w h gs dts stars g

/-- C8: on OK the settings commit clamps star count into [10, 5000], speed
percent into [10, 300] and twinkle percent into [0, 100], and a field that
fails to parse falls back to the current value (so an in-range current value
is kept unchanged). -/
theorem C8_settings_clamped (p : Option ℤ) (cur cs cv ct : ℤ)
    (hcs0 : 10 ≤ cs) (hcs1 : cs ≤ 5000)
    (hcv0 : 10 ≤ cv) (hcv1 : cv ≤ 300)
    (hct0 : 0 ≤ ct) (hct1 : ct ≤ 100) :
    (10 ≤ Settings.commitStars p cur ∧ Settings.commitStars p cur ≤ 5000) ∧
    (10 ≤ Settings.commitSpeed p cur ∧ Settings.commitSpeed p cur ≤ 300) ∧
    (0 ≤ Settings.commitTwinkle p cur ∧ Settings.commitTwinkle p cur ≤ 100) ∧
    Settings.commitStars none cs = cs ∧
    Settings.commitSpeed none cv = cv ∧
    Settings.commitTwinkle none ct = ct := by
  unfold Settings.commitStars Settings.commitSpeed Settings.commitTwinkle
    Settings.clampStars Settings.clampSpeed Settings.clampTwinkle
  simp only [Option.getD]
  refine ⟨⟨?_, ?_⟩, ⟨?_, ?_⟩, ⟨?_, ?_⟩, ?_, ?_, ?_⟩ <;> omega

/-- C8 witness: a huge parsed star count commits clamped, and parse failures
keep the current in-range values. -/
theorem C8_witness :
    (10 ≤ Settings.commitStars (some 999999) 600 ∧
      Settings.commitStars (some 999999) 600 ≤ 5000) ∧
    (10 ≤ Settings.commitSpeed (some 999999) 600 ∧
      Settings.commitSpeed (some 999999) 600 ≤ 300) ∧
    (0 ≤ Settings.commitTwinkle (some 999999) 600 ∧
      Settings.commitTwinkle (some 999999) 600 ≤ 100) ∧
    Settings.commitStars none 600 = 600 ∧
    Settings.commitSpeed none 60 = 60 ∧
    Settings.commitTwinkle none 30 = 30 :=
  C8_settings_clamped (some 999999) 600 600 60 30
    (by norm_num) (by norm_num) (by norm_num) (by norm_num) (by norm_num) (by norm_num)

/-- C9: InitStars is deterministic — two windows with equal generator state
and equal drawable rectangle produce identical star lists for the same count,
in the GDI variant (on RenderWindows) and in the plain D2D variant (as a list
pass). -/
theorem C9_init_deterministic (rw1 rw2 : Gdi.RenderWindow) (count gs : ℕ)
    (w h : ℚ) (g1 g2 : Gdi.Rng)
    (hrng : rw1.rng = rw2.rng) (hrc : rw1.rc = rw2.rc) (hg : g1 = g2) :
    (Gdi.InitStars count gs rw1).stars = (Gdi.InitStars count gs rw2).stars ∧
    (D2d.initStars w h count g1).1 = (D2d.initStars w h count g2).1 := by
  constructor
  · unfold Gdi.InitStars
    rw [hrng, hrc]
  · rw [hg]

/-- C9 witness: the same window (equal state) initialized twice gives the
same stars. -/
theorem C9_witness :
    (Gdi.InitStars 2 60 rw0).stars = (Gdi.InitStars 2 60 rw0).stars ∧
    (D2d.initStars 100 50 2 rng0).1 = (D2d.initStars 100 50 2 rng0).1 :=
  C9_init_deterministic rw0 rw0 2 60 100 50 rng0 rng0 rfl rfl rfl

/-- C10: the brush bucket computed from an intensity in [0, 255] equals the
unclamped quotient and lies within [0, BUCKETS-1] = [0, 5], so every access
of the 6-entry brushes array is in bounds. -/
theorem C10_bucket_in_bounds (i : ℤ) (h0 : 0 ≤ i) (h255 : i ≤ 255) :
    Gdi.bucket i = ⌊(i : ℚ) / (256 / (Gdi.BUCKETS : ℚ))⌋ ∧
    0 ≤ Gdi.bucket i ∧ Gdi.bucket i ≤ Gdi.BUCKETS - 1 := by
  have hfs : ⌊(i : ℚ) / (256 / (Gdi.BUCKETS : ℚ))⌋ < 6 := by
    apply Int.floor_lt.mpr
    rw [div_lt_iff₀ (by norm_num [Gdi.BUCKETS])]
    push_cast [Gdi.BUCKETS]
    have : (i : ℚ) ≤ 255 := by exact_mod_cast h255
    linarith
  have hf0 : 0 ≤ ⌊(i : ℚ) / (256 / (Gdi.BUCKETS : ℚ))⌋ := by
    apply Int.floor_nonneg.mpr
    apply div_nonneg
    · exact_mod_cast h0
    · norm_num [Gdi.BUCKETS]
  unfold Gdi.bucket Gdi.BUCKETS at *
  refine ⟨by omega, by omega, by omega⟩

/-- C10 witness: the extreme intensity 255 lands in bucket 5. -/
theorem C10_witness :
    Gdi.bucket 255 = ⌊(255 : ℚ) / (256 / (Gdi.BUCKETS : ℚ))⌋ ∧
    0 ≤ Gdi.bucket 255 ∧ Gdi.bucket 255 ≤ Gdi.BUCKETS - 1 :=
  C10_bucket_in_bounds 255 (by norm_num) (by norm_num)

theorem Gdi.psz_bounds (z : ℚ) : 1 ≤ Gdi.psz z ∧ Gdi.psz z ≤ 128 := by
  have h1 : (1 : ℚ) ≤ max 1 (Gdi.SIZE_SCALE * (Gdi.Z_MIN / z)) := le_max_left _ _
  have h2 : (1 : ℤ) ≤ ⌈max 1 (Gdi.SIZE_SCALE * (Gdi.Z_MIN / z))⌉ := by
    have h := Int.ceil_mono h1
    rwa [Int.ceil_one] at h
  unfold Gdi.psz
  omega

theorem D2d.psz_lower (z : ℚ) : 1 ≤ D2d.psz z := by
  unfold D2d.psz
  split_ifs with h
  · exact le_refl 1
  · exact not_lt.mp h

theorem D2d.psz_upper (z : ℚ) (hz : 1/20 < z) : D2d.psz z ≤ 50 := by
  unfold D2d.psz
  split_ifs with h
  · norm_num
  · rw [div_le_iff₀ (by linarith)]
    linarith

theorem D2dP.psz_range (z b : ℚ) :
    D2dP.g_starMin ≤ D2dP.psz z b ∧ D2dP.psz z b ≤ D2dP.g_starMax := by
  unfold D2dP.psz D2dP.clamp D2dP.g_starMin D2dP.g_starMax
  split_ifs with h1 h2
  · exact ⟨le_refl _, by norm_num⟩
  · exact ⟨by norm_num, le_refl _⟩
  · push_neg at h1 h2
    exact ⟨h1, h2⟩

theorem D2dP.psz_ge_one (z b : ℚ) (hz0 : 0 < z) (hz1 : z < 1) (hb : 3/5 ≤ b) :
    1 ≤ D2dP.psz z b := by
  have hinv : 1 < 1 / z := by
    rw [lt_div_iff₀ hz0]; linarith
  have hfpos : (0 : ℚ) < 3/5 + 4/5 * b := by linarith
  have hfac : (27/25 : ℚ) ≤ 3/5 + 4/5 * b := by linarith
  have hstep : 1 * (3/5 + 4/5 * b) < 1 / z * (3/5 + 4/5 * b) :=
    mul_lt_mul_of_pos_right hinv hfpos
  have hv : 1 < D2dP.g_starBase / z * (3/5 + 4/5 * b) * D2dP.g_starSizeMultiplier := by
    unfold D2dP.g_starBase D2dP.g_starSizeMultiplier
    rw [mul_one]
    linarith
  unfold D2dP.psz D2dP.clamp D2dP.g_starMin D2dP.g_starMax at *
  split_ifs with h1 h2
  · linarith
  · norm_num
  · linarith

/-- C2 (amended): the GDI size is within its configured [1, 128] bound for
every depth; the parameterized D2D size is clamped into its configured
[0.5, 8] bound for every depth and is at least 1 whenever the depth is in the
simulation's (0, 1) band with base ≥ 0.6; the plain D2D size has only a lower
clamp of 1, and is at most 50 on the reachable band z > 0.05. -/
theorem C2_amended (z z0 z1 b : ℚ) (hz0 : 1/20 < z0)
    (hz1l : 0 < z1) (hz1u : z1 < 1) (hb : 3/5 ≤ b) :
    (1 ≤ Gdi.psz z ∧ Gdi.psz z ≤ 128) ∧
    (1 ≤ D2d.psz z0 ∧ D2d.psz z0 ≤ 50) ∧
    (D2dP.g_starMin ≤ D2dP.psz z1 b ∧ D2dP.psz z1 b ≤ D2dP.g_starMax ∧
      1 ≤ D2dP.psz z1 b) :=
  ⟨Gdi.psz_bounds z,
   ⟨D2d.psz_lower z0, D2d.psz_upper z0 hz0⟩,
   ⟨(D2dP.psz_range z1 b).1, (D2dP.psz_range z1 b).2, D2dP.psz_ge_one z1 b hz1l hz1u hb⟩⟩

/-- C2 counterexample: in the parameterized D2D variant the size at depth 4
with base 0.6 is clamped to the configured minimum 0.5, which is below the
claimed minimum of 1 unit. -/
theorem C2_counterexample :
    D2dP.psz 4 (3/5) = 1/2 ∧ ¬ (1 ≤ D2dP.psz 4 (3/5)) := by
  norm_num [D2dP.psz, D2dP.clamp, D2dP.g_starBase, D2dP.g_starSizeMultiplier,
    D2dP.g_starMin, D2dP.g_starMax]

/-- C2 witness: concrete sizes at reachable depths stay in the claimed
bounds. -/
theorem C2_witness :
    (1 ≤ Gdi.psz 2 ∧ Gdi.psz 2 ≤ 128) ∧
    (1 ≤ D2d.psz (1/10) ∧ D2d.psz (1/10) ≤ 50) ∧
    (D2dP.g_starMin ≤ D2dP.psz (1/2) (3/5) ∧ D2dP.psz (1/2) (3/5) ≤ D2dP.g_starMax ∧
      1 ≤ D2dP.psz (1/2) (3/5)) :=
  C2_amended 2 (1/10) (1/2) (3/5) (by norm_num) (by norm_num) (by norm_num) (by norm_num)

theorem Gdi.intensity_bounds (z σ : ℚ) :
    0 ≤ Gdi.intensity z σ ∧ Gdi.intensity z σ ≤ 255 := by
  unfold Gdi.intensity
  omega

theorem Gdi.whiten_bounds (b : ℤ) (hbk0 : 0 ≤ b) (hbk1 : b ≤ 5) :
    (1/2 : ℚ) ≤ Gdi.whiten b ∧ Gdi.whiten b ≤ 1 := by
  have hq0 : (0 : ℚ) ≤ (b : ℚ) := by exact_mod_cast hbk0
  have hq5 : ((b : ℚ)) ≤ 5 := by exact_mod_cast hbk1
  have hd0 : (0 : ℚ) ≤ (b : ℚ) / 5 := by positivity
  have hd1 : (b : ℚ) / 5 ≤ 1 := by
    rw [div_le_one (by norm_num)]; exact hq5
  constructor <;> · unfold Gdi.whiten Gdi.BUCKETS; norm_num; linarith

theorem Gdi.channel_bounds (base ity b : ℤ) (hb0 : 0 ≤ base) (hb1 : base ≤ 255)
    (hi0 : 0 ≤ ity) (hi1 : ity ≤ 255) (hbk0 : 0 ≤ b) (hbk1 : b ≤ 5) :
    0 ≤ Gdi.channel base ity b ∧ Gdi.channel base ity b ≤ 255 := by
  have hc0 : 0 ≤ base * ity / 255 := Int.ediv_nonneg (mul_nonneg hb0 hi0) (by norm_num)
  have hc1 : base * ity / 255 ≤ 255 := by
    have h := Int.ediv_le_ediv (by norm_num : (0:ℤ) < 255)
      (mul_le_mul hb1 hi1 hi0 (by norm_num))
    omega
  have hw := Gdi.whiten_bounds b hbk0 hbk1
  have hcq0 : (0 : ℚ) ≤ ((base * ity / 255 : ℤ) : ℚ) := by exact_mod_cast hc0
  have hcq1 : ((base * ity / 255 : ℤ) : ℚ) ≤ 255 := by exact_mod_cast hc1
  have ha0 : 0 ≤ ((base * ity / 255 : ℤ) : ℚ) * Gdi.whiten b + 255 * (1 - Gdi.whiten b) := by
    nlinarith [mul_nonneg hcq0 (by linarith [hw.1] : (0:ℚ) ≤ Gdi.whiten b)]
  have ha1 : ((base * ity / 255 : ℤ) : ℚ) * Gdi.whiten b + 255 * (1 - Gdi.whiten b) ≤ 255 := by
    nlinarith [mul_nonneg (by linarith : (0:ℚ) ≤ 255 - ((base * ity / 255 : ℤ) : ℚ))
      (by linarith [hw.1] : (0:ℚ) ≤ Gdi.whiten b)]
  have hr0 : 0 ≤ round (((base * ity / 255 : ℤ) : ℚ) * Gdi.whiten b + 255 * (1 - Gdi.whiten b)) := by
    rw [round_eq]
    exact Int.floor_nonneg.mpr (by linarith)
  have hr1 : round (((base * ity / 255 : ℤ) : ℚ) * Gdi.whiten b + 255 * (1 - Gdi.whiten b)) ≤ 255 := by
    rw [round_eq]
    have hlt : ((base * ity / 255 : ℤ) : ℚ) * Gdi.whiten b + 255 * (1 - Gdi.whiten b) + 1/2
        < ((256 : ℤ) : ℚ) := by push_cast; linarith
    have := Int.floor_lt.mpr hlt
    omega
  unfold Gdi.channel
  omega

theorem D2d.channelOut_bounds (c : ℕ) (bs twk σ : ℚ) (hc : c ≤ 255)
    (hbs0 : 0 ≤ bs) (hbs1 : bs < 1) (ht0 : 0 ≤ twk) (ht1 : twk ≤ 1)
    (hσ0 : -1 ≤ σ) (hσ1 : σ ≤ 1) :
    0 ≤ D2d.channelOut c (D2d.twFactor bs twk σ) ∧
    D2d.channelOut c (D2d.twFactor bs twk σ) < 2 := by
  unfold D2d.channelOut D2d.twFactor
  have hσh : (0 : ℚ) ≤ σ * (1/2) + 1/2 := by linarith
  have htw0 : 0 ≤ bs + (σ * (1/2) + 1/2) * twk := by nlinarith [mul_nonneg hσh ht0]
  have htw1 : bs + (σ * (1/2) + 1/2) * twk < 2 := by
    nlinarith [mul_nonneg (by linarith : (0:ℚ) ≤ 1 - (σ * (1/2) + 1/2)) ht0]
  have hcq0 : (0 : ℚ) ≤ (c : ℚ) / 255 := by positivity
  have hcq1 : ((c : ℚ)) / 255 ≤ 1 := by
    rw [div_le_one (by norm_num)]; exact_mod_cast hc
  constructor
  · exact mul_nonneg hcq0 htw0
  · nlinarith [mul_le_mul_of_nonneg_right hcq1 htw0]

/-- C3 (amended): in the GDI variant the clamped intensity is in [0, 255] and
every whitened brush channel computed from in-range inputs is in [0, 255]; in
the normalized D2D variants the twinkle-modulated channels are nonnegative
and below 2 under the simulation's ranges (base in [0.6, 1), twinkle percent
at most 100, sine output in [-1, 1]), but they are not clamped to [0, 1]. -/
theorem C3_amended (z σ : ℚ) (base ity b : ℤ) (c : ℕ) (bs twk σ2 : ℚ)
    (hb0 : 0 ≤ base) (hb1 : base ≤ 255) (hi0 : 0 ≤ ity) (hi1 : ity ≤ 255)
    (hbk0 : 0 ≤ b) (hbk1 : b ≤ 5) (hc : c ≤ 255)
    (hbs0 : 0 ≤ bs) (hbs1 : bs < 1) (ht0 : 0 ≤ twk) (ht1 : twk ≤ 1)
    (hσ0 : -1 ≤ σ2) (hσ1 : σ2 ≤ 1) :
    (0 ≤ Gdi.intensity z σ ∧ Gdi.intensity z σ ≤ 255) ∧
    (0 ≤ Gdi.channel base ity b ∧ Gdi.channel base ity b ≤ 255) ∧
    (0 ≤ D2d.channelOut c (D2d.twFactor bs twk σ2) ∧
      D2d.channelOut c (D2d.twFactor bs twk σ2) < 2) :=
  ⟨Gdi.intensity_bounds z σ,
   Gdi.channel_bounds base ity b hb0 hb1 hi0 hi1 hbk0 hbk1,
   D2d.channelOut_bounds c bs twk σ2 hc hbs0 hbs1 ht0 ht1 hσ0 hσ1⟩

/-- C3 counterexample: in the normalized D2D variants, with full red (255),
star base 0.9, the default 30% twinkle, and sine output 0, the output channel
is 21/20 = 1.05, which exceeds the claimed [0.0, 1.0] range (the code applies
no clamp). -/
theorem C3_counterexample :
    D2d.channelOut 255 (D2d.twFactor (9/10) (3/10) 0) = 21/20 ∧
    ¬ (D2d.channelOut 255 (D2d.twFactor (9/10) (3/10) 0) ≤ 1) := by
  norm_num [D2d.channelOut, D2d.twFactor]

/-- C3 witness: concrete in-range inputs give in-range outputs. -/
theorem C3_witness :
    (0 ≤ Gdi.intensity (21/10) 1 ∧ Gdi.intensity (21/10) 1 ≤ 255) ∧
    (0 ≤ Gdi.channel 255 200 3 ∧ Gdi.channel 255 200 3 ≤ 255) ∧
    (0 ≤ D2d.channelOut 255 (D2d.twFactor (3/5) (3/10) 0) ∧
      D2d.channelOut 255 (D2d.twFactor (3/5) (3/10) 0) < 2) :=
  C3_amended (21/10) 1 255 200 3 255 (3/5) (3/10) 0
    (by norm_num) (by norm_num) (by norm_num) (by norm_num) (by norm_num)
    (by norm_num) (by norm_num) (by norm_num) (by norm_num) (by norm_num)
    (by norm_num) (by norm_num) (by norm_num)

/-- C4 (amended): in the GDI variant the respawn in RenderFrame is exactly
the InitStars sampling; in the plain D2D variant the respawn matches
InitStars for position, brightness base and phase, but draws the depth from
[0.5, 1) while InitStars draws it from [0.2, 1). -/
theorem C4_amended (w h : ℚ) (gs : ℕ) (fx fy fz : ℚ) (word : ℕ) (g f : ℚ)
    (hf0 : 0 ≤ f) (hf1 : f < 1) :
    Gdi.respawnStar w h gs fx fy fz word = Gdi.initStar w h gs fx fy fz word ∧
    D2d.respawnX w g = D2d.initX w g ∧
    D2d.respawnBase g = D2d.initBase g ∧
    D2d.respawnPhase g = D2d.initPhase g ∧
    (1/5 ≤ D2d.initZ f ∧ D2d.initZ f < 1) ∧
    (1/2 ≤ D2d.respawnZ f ∧ D2d.respawnZ f < 1) := by
  refine ⟨rfl, rfl, rfl, rfl, ?_, ?_⟩
  · unfold D2d.initZ
    constructor <;> linarith
  · unfold D2d.respawnZ
    constructor <;> linarith

/-- C4 counterexample: at the same unit draw 0, InitStars gives depth 0.2
while the respawn gives depth 0.5 — the two depth distributions differ in the
plain D2D variant. -/
theorem C4_counterexample :
    D2d.initZ 0 = 1/5 ∧ D2d.respawnZ 0 = 1/2 ∧ D2d.initZ 0 ≠ D2d.respawnZ 0 := by
  norm_num [D2d.initZ, D2d.respawnZ]

/-- C4 witness: concrete draws showing the per-field agreements and the two
depth ranges. -/
theorem C4_witness :
    Gdi.respawnStar 100 50 60 (1/4) (1/3) (1/2) 7 = Gdi.initStar 100 50 60 (1/4) (1/3) (1/2) 7 ∧
    D2d.respawnX 100 (1/4) = D2d.initX 100 (1/4) ∧
    D2d.respawnBase (1/4) = D2d.initBase (1/4) ∧
    D2d.respawnPhase (1/4) = D2d.initPhase (1/4) ∧
    (1/5 ≤ D2d.initZ (1/2) ∧ D2d.initZ (1/2) < 1) ∧
    (1/2 ≤ D2d.respawnZ (1/2) ∧ D2d.respawnZ (1/2) < 1) :=
  C4_amended 100 50 60 (1/4) (1/3) (1/2) 7 (1/4) (1/2) (by norm_num) (by norm_num)

/-- C7 (amended): in the GDI variant a star whose projected bounding box lies
entirely outside the viewport is skipped (no draw call), while the D2D
variants issue exactly one FillEllipse per star with no off-screen test. -/
theorem C7_amended (w h : ℚ) (s : Gdi.Star) (w2 h2 : ℚ) (stars : List D2d.Star)
    (hoff : Gdi.projX w s + (Gdi.psz s.z : ℚ) < 0 ∨
            Gdi.projX w s - (Gdi.psz s.z : ℚ) > w ∨
            Gdi.projY h s + (Gdi.psz s.z : ℚ) < 0 ∨
            Gdi.projY h s - (Gdi.psz s.z : ℚ) > h) :
    Gdi.emitStar w h s = none ∧
    D2d.drawCalls w2 h2 stars = stars.map (D2d.renderStar w2 h2) ∧
    (D2d.drawCalls w2 h2 stars).length = stars.length := by
  refine ⟨?_, rfl, by simp [D2d.drawCalls]⟩
  unfold Gdi.emitStar
  rw [if_pos hoff]

/-- C7 counterexample: a plain-D2D star whose projected box lies entirely
left of the 800×600 viewport still produces a FillEllipse call — the D2D
render loops have no off-screen skip. -/
theorem C7_counterexample :
    offscreenSpec 800 600 (D2d.renderStar 800 600 starOff) ∧
    D2d.drawCalls 800 600 [starOff] ≠ [] := by
  constructor
  · left
    norm_num [offscreenSpec, D2d.renderStar, D2d.psz, starOff]
  · simp [D2d.drawCalls]

/-- C7 witness: a far-off-screen GDI star is skipped. -/
theorem C7_witness :
    Gdi.emitStar 100 100 starOffG = none ∧
    D2d.drawCalls 800 600 [starOff] = [starOff].map (D2d.renderStar 800 600) ∧
    (D2d.drawCalls 800 600 [starOff]).length = ([starOff] : List D2d.Star).length :=
  C7_amended 100 100 starOffG 800 600 [starOff]
    (by left; norm_num [Gdi.projX, Gdi.psz, Gdi.FOCAL, Gdi.Z_MIN, Gdi.Z_MAX,
      Gdi.SIZE_SCALE, starOffG])

theorem Gdi.stepStar_WF (w h : ℚ) (gs : ℕ) (dt : ℚ) (s : Gdi.Star) (r : Gdi.Draws)
    (hdt : 0 ≤ dt) (hfz0 : 0 ≤ r.fz) (hfz1 : r.fz < 1) (hs : Gdi.WFStar s) :
    Gdi.WFStar (Gdi.stepStar w h gs dt s r) := by
  obtain ⟨h1, h2, h3⟩ := hs
  unfold Gdi.WFStar Gdi.Z_MIN Gdi.Z_MAX at *
  unfold Gdi.stepStar
  split_ifs with hz
  · unfold Gdi.respawnStar Gdi.Z_MIN Gdi.Z_MAX
    refine ⟨?_, ?_, ?_⟩
    · show (2:ℚ) ≤ r.fz * (33 - 2) + 2
      linarith
    · show r.fz * (33 - 2) + 2 < 33
      linarith
    · show (0:ℚ) ≤ (gs : ℚ) + ((r.word % Gdi.jitterMax gs : ℕ) : ℚ)
      positivity
  · push_neg at hz
    unfold Gdi.advanceZ at *
    have hnn : 0 ≤ s.speed * dt * (1/2) := by positivity
    exact ⟨le_of_lt hz, by simpa using (by linarith : s.z - s.speed * dt * (1/2) < 33), h3⟩

theorem Gdi.foldl_WF (w h : ℚ) (gs : ℕ) (ps : List (ℚ × Gdi.Draws)) :
    ∀ s : Gdi.Star, (∀ p ∈ ps, Gdi.WFFrame p) → Gdi.WFStar s →
      Gdi.WFStar (ps.foldl (Gdi.stepStarP w h gs) s) := by
  induction ps with
  | nil => intro s _ hs; exact hs
  | cons p rest ih =>
      intro s hp hs
      simp only [List.foldl_cons]
      refine ih _ (fun q hq => hp q (List.mem_cons_of_mem _ hq)) ?_
      have hpp := hp p (List.mem_cons_self _ _)
      exact Gdi.stepStar_WF w h gs p.1 s p.2 hpp.1 hpp.2.1 hpp.2.2 ⟨hs.1, hs.2.1, hs.2.2⟩

theorem D2d.stepStar_WF000 (w h speed dt : ℚ) (s : D2d.Star) (r : D2d.Draws)
    (hsp : 0 ≤ speed) (hdt : 0 ≤ dt) (hfz0 : 0 ≤ r.fz) (hfz1 : r.fz < 1)
    (hs : D2d.WFStar s) : D2d.WFStar (D2d.stepStar w h speed dt s r) := by
  obtain ⟨h1, h2⟩ := hs
  unfold D2d.WFStar at *
  unfold D2d.stepStar
  split_ifs with hz
  · unfold D2d.respawnStar D2d.respawnZ
    constructor
    · show (1/20 : ℚ) < 1/2 + r.fz * (1 - 1/2)
      linarith
    · show (1/2 : ℚ) + r.fz * (1 - 1/2) < 1
      linarith
  · push_neg at hz
    have hnn : 0 ≤ (1/2) * speed * dt := by positivity
    exact ⟨hz, by simpa using (by linarith : s.z - (1/2) * speed * dt < 1)⟩

theorem D2d.foldl_WF000 (w h speed : ℚ) (hsp : 0 ≤ speed) (qs : List (ℚ × D2d.Draws)) :
    ∀ t : D2d.Star, (∀ q ∈ qs, D2d.WFFrame q) → D2d.WFStar t →
      D2d.WFStar (qs.foldl (D2d.stepStarP w h speed) t) := by
  induction qs with
  | nil => intro t _ ht; exact ht
  | cons q rest ih =>
      intro t hq ht
      simp only [List.foldl_cons]
      refine ih _ (fun p hp => hq p (List.mem_cons_of_mem _ hp)) ?_
      have hqq := hq q (List.mem_cons_self _ _)
      exact D2d.stepStar_WF000 w h speed q.1 t q.2 hsp hqq.1 hqq.2.1 hqq.2.2 ht

/-- C1 (amended): over any sequence of frame advances with nonnegative dt and
unit respawn draws, a GDI star's depth stays in [Z_MIN, Z_MAX) and a plain
D2D star's depth stays in (0.05, 1); in both variants the depth used by the
projection divide is strictly positive; a GDI star whose advance triggers the
respawn is reassigned a depth in [Z_MIN, Z_MAX) — including possibly exactly
Z_MIN, not the claimed (Z_MIN, Z_MAX]. -/
theorem C1_amended (w h : ℚ) (gs : ℕ) (ps : List (ℚ × Gdi.Draws)) (s : Gdi.Star)
    (w2 h2 speed : ℚ) (qs : List (ℚ × D2d.Draws)) (t : D2d.Star)
    (fx fy fz : ℚ) (word : ℕ)
    (hps : ∀ p ∈ ps, Gdi.WFFrame p) (hs : Gdi.WFStar s)
    (hspeed : 0 ≤ speed) (hqs : ∀ q ∈ qs, D2d.WFFrame q) (ht : D2d.WFStar t)
    (hfz0 : 0 ≤ fz) (hfz1 : fz < 1) :
    (Gdi.Z_MIN ≤ (ps.foldl (Gdi.stepStarP w h gs) s).z ∧
      (ps.foldl (Gdi.stepStarP w h gs) s).z < Gdi.Z_MAX ∧
      0 < (ps.foldl (Gdi.stepStarP w h gs) s).z) ∧
    (1/20 < (qs.foldl (D2d.stepStarP w2 h2 speed) t).z ∧
      (qs.foldl (D2d.stepStarP w2 h2 speed) t).z < 1 ∧
      0 < (qs.foldl (D2d.stepStarP w2 h2 speed) t).z) ∧
    (Gdi.Z_MIN ≤ (Gdi.respawnStar w h gs fx fy fz word).z ∧
      (Gdi.respawnStar w h gs fx fy fz word).z < Gdi.Z_MAX) := by
  have hg := Gdi.foldl_WF w h gs ps s hps hs
  have hd := D2d.foldl_WF000 w2 h2 speed hspeed qs t hqs ht
  obtain ⟨hg1, hg2, _⟩ := hg
  obtain ⟨hd1, hd2⟩ := hd
  refine ⟨⟨hg1, hg2, ?_⟩, ⟨hd1, hd2, ?_⟩, ?_, ?_⟩
  · have : (0:ℚ) < Gdi.Z_MIN := by norm_num [Gdi.Z_MIN]
    linarith
  · linarith
  · show Gdi.Z_MIN ≤ fz * (Gdi.Z_MAX - Gdi.Z_MIN) + Gdi.Z_MIN
    norm_num [Gdi.Z_MIN, Gdi.Z_MAX]
    linarith
  · show fz * (Gdi.Z_MAX - Gdi.Z_MIN) + Gdi.Z_MIN < Gdi.Z_MAX
    norm_num [Gdi.Z_MIN, Gdi.Z_MAX]
    linarith

/-- C1 counterexample: a GDI star at depth 2.1 with speed 60 advanced by
dt = 1/60 drops to 1.6 ≤ Z_MIN and respawns; with unit depth draw 0 the
reassigned depth is exactly Z_MIN = 2, which is not in the claimed open-below
interval (Z_MIN, Z_MAX]. -/
theorem C1_counterexample :
    Gdi.advanceZ (21/10) 60 (1/60) ≤ Gdi.Z_MIN ∧
    (Gdi.stepStar 800 600 60 (1/60) starC1 drawsC1).z = Gdi.Z_MIN ∧
    ¬ (Gdi.Z_MIN < (Gdi.stepStar 800 600 60 (1/60) starC1 drawsC1).z ∧
       (Gdi.stepStar 800 600 60 (1/60) starC1 drawsC1).z ≤ Gdi.Z_MAX) := by
  refine ⟨?_, ?_, ?_⟩
  · norm_num [Gdi.advanceZ, Gdi.Z_MIN]
  · norm_num [Gdi.stepStar, Gdi.advanceZ, Gdi.respawnStar, Gdi.Z_MIN, Gdi.Z_MAX,
      starC1, drawsC1]
  · norm_num [Gdi.stepStar, Gdi.advanceZ, Gdi.respawnStar, Gdi.Z_MIN, Gdi.Z_MAX,
      starC1, drawsC1]

/-- C1 witness: one concrete frame keeps concrete stars in band in both
variants, and a concrete respawn draw lands in [Z_MIN, Z_MAX). -/
theorem C1_witness :
    (Gdi.Z_MIN ≤ (([((0:ℚ), (⟨0, 0, 0, 0⟩ : Gdi.Draws))]).foldl (Gdi.stepStarP 800 600 60) ⟨0, 0, 2, 0⟩).z ∧
      (([((0:ℚ), (⟨0, 0, 0, 0⟩ : Gdi.Draws))]).foldl (Gdi.stepStarP 800 600 60) ⟨0, 0, 2, 0⟩).z < Gdi.Z_MAX ∧
      0 < (([((0:ℚ), (⟨0, 0, 0, 0⟩ : Gdi.Draws))]).foldl (Gdi.stepStarP 800 600 60) ⟨0, 0, 2, 0⟩).z) ∧
    (1/20 < (([((0:ℚ), (⟨0, 0, 0, 0, 0⟩ : D2d.Draws))]).foldl (D2d.stepStarP 800 600 (3/5)) ⟨0, 0, 1/2, 3/5, 0⟩).z ∧
      (([((0:ℚ), (⟨0, 0, 0, 0, 0⟩ : D2d.Draws))]).foldl (D2d.stepStarP 800 600 (3/5)) ⟨0, 0, 1/2, 3/5, 0⟩).z < 1 ∧
      0 < (([((0:ℚ), (⟨0, 0, 0, 0, 0⟩ : D2d.Draws))]).foldl (D2d.stepStarP 800 600 (3/5)) ⟨0, 0, 1/2, 3/5, 0⟩).z) ∧
    (Gdi.Z_MIN ≤ (Gdi.respawnStar 800 600 60 0 0 (1/2) 0).z ∧
      (Gdi.respawnStar 800 600 60 0 0 (1/2) 0).z < Gdi.Z_MAX) :=
  C1_amended 800 600 60 [((0:ℚ), ⟨0, 0, 0, 0⟩)] ⟨0, 0, 2, 0⟩
    800 600 (3/5) [((0:ℚ), ⟨0, 0, 0, 0, 0⟩)] ⟨0, 0, 1/2, 3/5, 0⟩
    0 0 (1/2) 0
    (by intro p hp; simp only [List.mem_singleton] at hp; subst hp
        exact ⟨le_refl 0, le_refl 0, by norm_num⟩)
    (by refine ⟨by norm_num [Gdi.Z_MIN], by norm_num [Gdi.Z_MAX], by norm_num⟩)
    (by norm_num)
    (by intro q hq; simp only [List.mem_singleton] at hq; subst hq
        exact ⟨le_refl 0, le_refl 0, by norm_num⟩)
    (by exact ⟨by norm_num, by norm_num⟩)
    (by norm_num) (by norm_num)

theorem Gate.gateFull_fst (d s : ℚ) (f : Bool) (st : Gate.GateState) (m : Gate.Msg) :
    (Gate.gateFull d s f st m).1 = Gate.gateFullSpec d s f st m := by
  unfold Gate.gateFull Gate.gateFullSpec
  by_cases h1 : s < d
  · simp [h1, not_le.mpr h1]
  · have h1' : d ≤ s := not_lt.mp h1
    cases f with
    | false => simp [h1]
    | true =>
        simp only [if_neg h1, decide_eq_true h1', Bool.true_and]
        cases m with
        | keydown => simp
        | buttondown => simp
        | mousemove cur =>
            cases hinit : st.startMouseInit with
            | false => simp [hinit]
            | true =>
                simp only [hinit, Bool.true_and]
                by_cases h2 : |cur.1 - st.startMouse.1| < Gate.mouseMoveThreshold ∧
                    |cur.2 - st.startMouse.2| < Gate.mouseMoveThreshold
                · simp [h2, not_le.mpr h2.1, not_le.mpr h2.2]
                · rw [if_neg h2]
                  rw [not_and_or, not_lt, not_lt] at h2
                  rcases h2 with h2 | h2
                  · simp [h2]
                  · simp [h2]

/-- C5 (amended): in the GDI and parameterized D2D variants the full-screen
loop is terminated exactly when the debounce has elapsed, the process owns
the foreground window, and the input is a key/button press or a mouse move at
least 12 pixels (on some axis) from the recorded start position — so input in
the debounce window, input without focus, and sub-threshold movement never
terminate, while a 20-pixel move after the debounce with focus does; the
plain D2D variant instead terminates on any input once its 2.5 s debounce has
elapsed, ignoring focus and mouse displacement. -/
theorem C5_amended :
    (∀ (d s : ℚ) (f : Bool) (st : Gate.GateState) (m : Gate.Msg),
      (Gate.gateFull d s f st m).1 = Gate.gateFullSpec d s f st m) ∧
    (∀ (s : ℚ) (f : Bool) (m : Gate.Msg),
      Gate.gate000 s f m = decide (Gate.debounce000 ≤ s)) := by
  constructor
  · exact Gate.gateFull_fst
  · intro s f m
    unfold Gate.gate000
    rw [decide_eq_decide]
    exact not_lt

/-- C5 counterexample: in the plain D2D variant, a 5-pixel mouse move after
the debounce window terminates the loop even though the screensaver window
does not hold focus — the handler never consults focus or displacement. -/
theorem C5_counterexample :
    Gate.gate000 3 false (Gate.Msg.mousemove (5, 0)) = true := by
  simp only [Gate.gate000, Gate.debounce000, decide_eq_true_eq]
  norm_num

end Starfield
